import Mathlib

/-!
Verification development for the shiksha-reports event-sync service.

The embedding below follows the TypeScript source:
  * `CronJobService` (cron.service.ts): job status record, overlap guard,
    run accounting, course / question-set sub-pulls, save-by-identifier.
  * `KafkaConsumerService` (kafka-consumer.ts): the eachMessage boundary
    and the `processEvent` router with its event-type override rules.
  * `ProjectHandler` (project.handler.ts): validation, the zero-completed
    short-circuit, and the error-wrapping catch blocks.

External collaborators that are not part of the repository (Kafka client,
TypeORM internals, the domain handlers other than ProjectHandler, the
transform service, the external API client) are modelled as parameters
(oracles) of the functions that call them: each such parameter stands for
the outcome the collaborator produced on this invocation.
-/

namespace ShikshaReports

/-! ## Log / side-effect trace vocabulary

Every observable side effect of the routing and cron code is recorded as an
`Action`.  `console` stands for a bare console.log debug print (its payload
is irrelevant to every claim, so it is abstracted to a tag), while the
structured logger calls keep their message strings. -/

/-- Identifier of a domain handler the router can dispatch to. -/
inductive HandlerId where
  | user
  | event
  | attendance
  | course
  | assessment
  | content
  deriving DecidableEq, Repr

/-- One observable side effect: a log line, a handler invocation, or a
storage operation performed inside a handler. -/
inductive Action where
  | console
  | logDebug (msg : String)
  | logInfo (msg : String)
  | logWarn (msg : String)
  | logError (msg : String)
  | callHandler (h : HandlerId) (method : String)
  | storage (op : String)
  deriving DecidableEq, Repr

/-- Is the action a logger.warn line? -/
def Action.isWarn : Action → Bool
  | .logWarn _ => true
  | _ => false

/-- Is the action a handler invocation? -/
def Action.isCall : Action → Bool
  | .callHandler _ _ => true
  | _ => false

/-- Is the action a storage operation? -/
def Action.isStorage : Action → Bool
  | .storage _ => true
  | _ => false

/-! ## CronJobService: job status and the guarded run

From cron.service.ts.  `CronJobStatus` mirrors the `jobStatus` field;
dates are modelled as natural-number timestamps. -/

/-- The `CronJobStatus` record of cron.service.ts. -/
structure CronJobStatus where
  isRunning : Bool
  lastExecution : Option Nat
  lastSuccess : Option Nat
  lastError : Option String
  totalExecutions : Nat
  successfulExecutions : Nat
  failedExecutions : Nat
  deriving DecidableEq, Repr

/-- The initial value of `jobStatus` in the CronJobService constructor. -/
def initialJobStatus : CronJobStatus :=
  { isRunning := false
    lastExecution := none
    lastSuccess := none
    lastError := none
    totalExecutions := 0
    successfulExecutions := 0
    failedExecutions := 0 }

/-- The `executeCronJob` method.  `now` is the current time; `body` is the
outcome of awaiting `processCourseData` then `processQuestionSetData`
(`Except.error e` when an unrecovered exception with message `e` escapes
the two sub-pulls).  Returns the updated status together with the log
lines the method itself emits. -/
def executeCronJob (s : CronJobStatus) (now : Nat) (body : Except String Unit) :
    CronJobStatus × List Action :=
  if s.isRunning then
    (s, [Action.logWarn "Cron job is already running, skipping this execution"])
  else
    let s1 : CronJobStatus :=
      { s with
          isRunning := true
          lastExecution := some now
          totalExecutions := s.totalExecutions + 1 }
    match body with
    | Except.ok _ =>
        ({ s1 with
             lastSuccess := some now
             successfulExecutions := s1.successfulExecutions + 1
             lastError := none
             isRunning := false },
         [Action.logInfo "Starting daily cron job execution",
          Action.logInfo "Daily cron job completed successfully"])
    | Except.error e =>
        ({ s1 with
             failedExecutions := s1.failedExecutions + 1
             lastError := some e
             isRunning := false },
         [Action.logInfo "Starting daily cron job execution",
          Action.logError "Daily cron job failed"])

/-- The `triggerManualExecution` method: logs, then invokes the same
guarded `executeCronJob`. -/
def triggerManualExecution (s : CronJobStatus) (now : Nat)
    (body : Except String Unit) : CronJobStatus × List Action :=
  let r := executeCronJob s now body
  (r.1, Action.logInfo "Manual cron job execution triggered" :: r.2)

/-- The `getJobStatus` method returns a copy of the status record. -/
def getJobStatus (s : CronJobStatus) : CronJobStatus := s

/-- Statuses reachable from the constructor value by any sequence of
(scheduled or manual) `executeCronJob` invocations. -/
inductive ReachableStatus : CronJobStatus → Prop where
  | init : ReachableStatus initialJobStatus
  | step (s : CronJobStatus) (now : Nat) (body : Except String Unit) :
      ReachableStatus s → ReachableStatus (executeCronJob s now body).1

/-! ## KafkaConsumerService: message boundary and event router

From kafka-consumer.ts (the full version with the course/content override
rules).  A handler method invocation is modelled by an oracle giving the
storage operations the handler performed and, optionally, the exception
it threw. -/

/-- Opaque message payload (the `data` field); the router never inspects
it beyond JS truthiness, and any present object is truthy. -/
abbrev Payload := String

/-- An inbound event envelope as destructured by `processEvent`:
`eventType` and `data` may each be absent. -/
structure Envelope where
  eventType : Option String
  data : Option Payload
  deriving DecidableEq, Repr

/-- JS truthiness of a possibly-absent string: absent, null and the empty
string are falsy. -/
def strTruthy : Option String → Bool
  | none => false
  | some s => !(s == "")

/-- Outcome of one domain-handler method invocation: the storage
operations it performed, and the exception message it threw, if any. -/
def HandlerOracle : Type :=
  HandlerId → String → Payload → List String × Option String

/-- Result of routing one message: the trace of side effects that
occurred, and the exception escaping the routine, if any. -/
structure RouteResult where
  actions : List Action
  thrown : Option String
  deriving DecidableEq, Repr

/-- Prepend already-emitted actions to a routing result. -/
def withPre (pre : List Action) (r : RouteResult) : RouteResult :=
  { r with actions := pre ++ r.actions }

/-- Await a domain-handler method: the call is recorded, then the storage
operations the handler performed; its exception, if any, propagates. -/
def invokeHandler (o : HandlerOracle) (h : HandlerId) (m : String)
    (d : Payload) : RouteResult :=
  { actions := Action.callHandler h m :: ((o h m d).1.map Action.storage)
    thrown := (o h m d).2 }

/-- A routing branch that only emits a logger.warn line. -/
def warnOnly (msg : String) : RouteResult :=
  { actions := [Action.logWarn msg], thrown := none }

/-- The `handleUserEvent` sub-dispatcher. -/
def handleUserEvent (o : HandlerOracle) (eventType : String) (d : Payload) :
    RouteResult :=
  if eventType == "USER_CREATED" || eventType == "USER_UPDATED" then
    invokeHandler o HandlerId.user "handleUserUpsert" d
  else if eventType == "USER_DELETED" then
    invokeHandler o HandlerId.user "handleUserDelete" d
  else if eventType == "COHORT_CREATED" || eventType == "COHORT_UPDATED" then
    invokeHandler o HandlerId.user "handleCohortUpsert" d
  else if eventType == "COHORT_DELETED" then
    invokeHandler o HandlerId.user "handleCohortDelete" d
  else
    warnOnly ("Unhandled user eventType: " ++ eventType)

/-- The `handleEventEvent` sub-dispatcher. -/
def handleEventEvent (o : HandlerOracle) (eventType : String) (d : Payload) :
    RouteResult :=
  withPre [Action.logInfo ("Handling event-event type: " ++ eventType)]
    (if eventType == "EVENT_CREATED" || eventType == "EVENT_UPDATED" then
      invokeHandler o HandlerId.event "handleEventUpsert" d
    else if eventType == "EVENT_DELETED" then
      invokeHandler o HandlerId.event "handleEventDelete" d
    else
      warnOnly ("Unhandled event eventType: " ++ eventType))

/-- The `handleAttendanceEvent` sub-dispatcher. -/
def handleAttendanceEvent (o : HandlerOracle) (eventType : String)
    (d : Payload) : RouteResult :=
  withPre [Action.logInfo ("Handling attendance-event type: " ++ eventType)]
    (if eventType == "ATTENDANCE_CREATED" || eventType == "ATTENDANCE_UPDATED" then
      invokeHandler o HandlerId.attendance "handleAttendanceUpsert" d
    else if eventType == "ATTENDANCE_DELETED" then
      invokeHandler o HandlerId.attendance "handleAttendanceDelete" d
    else
      warnOnly ("Unhandled attendance eventType: " ++ eventType))

/-- The `handleAssessmentEvent` sub-dispatcher. -/
def handleAssessmentEvent (o : HandlerOracle) (eventType : String)
    (d : Payload) : RouteResult :=
  withPre [Action.logInfo ("Handling assessment-event type: " ++ eventType)]
    (if eventType == "ASSESSMENT_CREATED" || eventType == "ASSESSMENT_UPDATED" then
      invokeHandler o HandlerId.assessment "handleAssessmentUpsert" d
    else if eventType == "ASSESSMENT_DELETED" then
      invokeHandler o HandlerId.assessment "handleAssessmentDelete" d
    else
      warnOnly ("Unhandled assessment eventType: " ++ eventType))

/-- The `handleCourseEvent` sub-dispatcher: two console.log prints, a
logger.log line, then dispatch on the event type. -/
def handleCourseEvent (o : HandlerOracle) (eventType : String) (d : Payload) :
    RouteResult :=
  withPre [Action.console, Action.console,
           Action.logInfo ("Handling course-event type: " ++ eventType)]
    (if eventType == "COURSE_ENROLLMENT_CREATED" then
      withPre [Action.console]
        (invokeHandler o HandlerId.course "handleCourseEnrollmentCreated" d)
    else if eventType == "COURSE_STATUS_UPDATED" then
      withPre [Action.console]
        (invokeHandler o HandlerId.course "handleUserCourseUpdate" d)
    else
      withPre [Action.console]
        (warnOnly ("Unhandled course eventType: " ++ eventType)))

/-- The `handleContentEvent` sub-dispatcher. -/
def handleContentEvent (o : HandlerOracle) (eventType : String) (d : Payload) :
    RouteResult :=
  withPre [Action.console, Action.console,
           Action.logInfo ("Handling content-event type: " ++ eventType)]
    (if eventType == "CONTENT_TRACKING_CREATED" then
      withPre [Action.console]
        (invokeHandler o HandlerId.content "handleContentTrackingCreated" d)
    else
      withPre [Action.console]
        (warnOnly ("Unhandled content eventType: " ++ eventType)))

/-- The five console.log debug prints at the top of `processEvent`. -/
def consoleBanner : List Action :=
  [Action.console, Action.console, Action.console, Action.console,
   Action.console]

/-- The `processEvent` router: debug banner, envelope guard, event-type
override rules, then topic dispatch. -/
def processEvent (o : HandlerOracle) (topic : String) (ev : Envelope) :
    RouteResult :=
  withPre consoleBanner
    (if !(strTruthy ev.eventType) || ev.data.isNone then
      warnOnly ("Invalid event received from topic " ++ topic)
    else
      match ev.eventType, ev.data with
      | some eventType, some d =>
        if eventType == "COURSE_ENROLLMENT_CREATED" then
          withPre [Action.console] (handleCourseEvent o eventType d)
        else if eventType == "CONTENT_TRACKING_CREATED" then
          withPre [Action.console] (handleContentEvent o eventType d)
        else if topic == "user-topic" then
          handleUserEvent o eventType d
        else if topic == "event-topic" then
          handleEventEvent o eventType d
        else if topic == "attendance-topic" then
          handleAttendanceEvent o eventType d
        else if topic == "course-topic" then
          handleCourseEvent o eventType d
        else if topic == "assessment-topic" then
          handleAssessmentEvent o eventType d
        else
          warnOnly ("Unhandled Kafka topic: " ++ topic)
      | _, _ => warnOnly ("Invalid event received from topic " ++ topic))

/-- Try-block body of the `eachMessage` callback in `runConsumer`: empty
message check, JSON parse (whose outcome is the `parse` oracle), then
`processEvent`. -/
def eachMessageBody (o : HandlerOracle)
    (parse : String → Except String Envelope) (topic : String)
    (value : Option String) : RouteResult :=
  if !(strTruthy value) then
    warnOnly "Received empty Kafka message"
  else
    match value with
    | some v =>
      match parse v with
      | Except.error e => { actions := [], thrown := some e }
      | Except.ok ev => processEvent o topic ev
    | none => warnOnly "Received empty Kafka message"

/-- The full `eachMessage` callback: the try-block body inside the
catch-all that logs any escaping error instead of rethrowing it. -/
def eachMessage (o : HandlerOracle) (parse : String → Except String Envelope)
    (topic : String) (value : Option String) : RouteResult :=
  let r := eachMessageBody o parse topic value
  match r.thrown with
  | none => r
  | some e =>
    { actions := r.actions ++ [Action.logError ("Error processing Kafka message: " ++ e)]
      thrown := none }

/-! ## CronJobService: sub-pulls and save-by-identifier

From cron.service.ts.  The external API client and the transform service
are collaborators outside the repository: a fetch outcome is a parameter,
and the combined transform-then-save outcome of one item is an oracle
`itemOutcome`. -/

/-- One item of an external API response (only its `identifier` is
inspected by the cron service; the rest is opaque). -/
structure ApiItem where
  identifier : String
  body : String
  deriving DecidableEq, Repr

/-- The `ExternalApiResponse` shape: a success flag and a possibly-absent
item collection. -/
structure ExternalApiResponse where
  success : Bool
  data : Option (List ApiItem)
  deriving DecidableEq, Repr

/-- The per-item loop shared by both sub-pulls: each item is transformed
and saved (outcome given by `itemOutcome`); a failing item is logged with
its identifier and skipped, a succeeding item is counted. -/
def processItems (itemOutcome : ApiItem → Except String Unit) (tag : String) :
    List ApiItem → Nat × List Action
  | [] => (0, [])
  | it :: rest =>
    match itemOutcome it with
    | Except.ok _ =>
      let r := processItems itemOutcome tag rest
      (r.1 + 1, r.2)
    | Except.error _ =>
      let r := processItems itemOutcome tag rest
      (r.1, Action.logError (tag ++ it.identifier) :: r.2)

/-- The `processCourseData` sub-pull: fetch, empty-guard, per-item loop.
The source also returns a wall-clock duration, which is not modelled; the
result is `totalProcessed`, or the rethrown fetch error. -/
def processCourseData (fetch : Except String ExternalApiResponse)
    (itemOutcome : ApiItem → Except String Unit) :
    Except String Nat × List Action :=
  match fetch with
  | Except.error e =>
    (Except.error e, [Action.logError "Failed to process course data"])
  | Except.ok resp =>
    match resp.data with
    | none =>
      (Except.ok 0,
       [Action.logInfo "No course data available from Pratham Digital API"])
    | some items =>
      if !resp.success || items.isEmpty then
        (Except.ok 0,
         [Action.logInfo "No course data available from Pratham Digital API"])
      else
        let r := processItems itemOutcome "Failed to process course data: " items
        (Except.ok r.1,
         Action.logInfo "Processing courses" ::
           r.2 ++ [Action.logInfo "Successfully processed courses"])

/-- The `processQuestionSetData` sub-pull, same structure as the course
sub-pull. -/
def processQuestionSetData (fetch : Except String ExternalApiResponse)
    (itemOutcome : ApiItem → Except String Unit) :
    Except String Nat × List Action :=
  match fetch with
  | Except.error e =>
    (Except.error e, [Action.logError "Failed to process question set data"])
  | Except.ok resp =>
    match resp.data with
    | none =>
      (Except.ok 0,
       [Action.logInfo "No question set data available from Pratham Digital API"])
    | some items =>
      if !resp.success || items.isEmpty then
        (Except.ok 0,
         [Action.logInfo "No question set data available from Pratham Digital API"])
      else
        let r := processItems itemOutcome "Failed to process question set data: " items
        (Except.ok r.1,
         Action.logInfo "Processing question sets" ::
           r.2 ++ [Action.logInfo "Successfully processed question sets"])

/-- Sequencing of the two awaited sub-pulls inside the try block of
`executeCronJob`: the run body succeeds exactly when both do. -/
def cronJobBody (courseRes qsRes : Except String Nat) : Except String Unit :=
  match courseRes with
  | Except.error e => Except.error e
  | Except.ok _ =>
    match qsRes with
    | Except.error e => Except.error e
    | Except.ok _ => Except.ok ()

/-- Data carried by a course / question-set upsert: the natural key and
the (opaque) remaining mutable fields. -/
structure EntityData where
  identifier : String
  fields : String
  deriving DecidableEq, Repr

/-- A persisted row: natural key, mutable fields, and the updated_at
timestamp. -/
structure EntityRow where
  identifier : String
  fields : String
  updated_at : Nat
  deriving DecidableEq, Repr

/-- The `findOne` lookup keyed by `identifier` used by both save
methods. -/
def findOneByIdentifier (store : List EntityRow) (id : String) :
    Option EntityRow :=
  store.find? (fun r => r.identifier == id)

/-- The `saveCourseData` method: look up by `identifier`; if found,
update the matching row with all incoming fields plus a fresh
`updated_at`; otherwise insert the row.  Modelled from the spec: the
Course entity definition and the repository save internals are not under
src/, and per the spec the `updated_at` timestamp is set on every write,
so the inserted row is stamped with the current time as well. -/
def saveCourseData (store : List EntityRow) (cd : EntityData) (now : Nat) :
    List EntityRow :=
  match findOneByIdentifier store cd.identifier with
  | some _ =>
    store.map (fun r =>
      if r.identifier == cd.identifier then
        { identifier := cd.identifier, fields := cd.fields, updated_at := now }
      else r)
  | none =>
    store ++ [{ identifier := cd.identifier, fields := cd.fields, updated_at := now }]

/-- The `saveQuestionSetData` method, identical in structure to
`saveCourseData` over the question-set repository.  Modelled from the
spec for the same reason as `saveCourseData`: the QuestionSet entity is
not under src/ and `updated_at` is set on every write. -/
def saveQuestionSetData (store : List EntityRow) (qd : EntityData)
    (now : Nat) : List EntityRow :=
  match findOneByIdentifier store qd.identifier with
  | some _ =>
    store.map (fun r =>
      if r.identifier == qd.identifier then
        { identifier := qd.identifier, fields := qd.fields, updated_at := now }
      else r)
  | none =>
    store ++ [{ identifier := qd.identifier, fields := qd.fields, updated_at := now }]

/-! ## ProjectHandler

From project.handler.ts.  The transform service and the database service
are collaborators outside src/ and appear as oracles; errors are split
into the typed `ValidationError` and everything else, mirroring the
`instanceof ValidationError` test in the catch blocks. -/

/-- An error raised inside a handler: the typed ValidationError from
../types, or any other (transform / storage) error. -/
inductive HandlerError where
  | validation (msg : String)
  | other (msg : String)
  deriving DecidableEq, Repr

/-- Modelled from the spec: `validateRequired` lives in ../types, which
is not under src/; per the spec, required-field validation raises a typed
ValidationError when the field is absent. -/
def validateRequired {α : Type} (v : Option α) (name : String) :
    Except HandlerError Unit :=
  match v with
  | none => Except.error (HandlerError.validation (name ++ " is required"))
  | some _ => Except.ok ()

/-- Modelled from the spec: `validateString` lives in ../types, which is
not under src/; it raises a typed ValidationError when the field is not a
present string. -/
def validateString (v : Option String) (name : String) :
    Except HandlerError Unit :=
  match v with
  | none => Except.error (HandlerError.validation (name ++ " must be a string"))
  | some _ => Except.ok ()

/-- The nested `projectTemplate` object of a PROJECT_CREATED payload. -/
structure ProjectTemplate where
  projectTemplateId : Option String
  deriving DecidableEq, Repr

/-- A PROJECT_CREATED payload as read by `handleProjectCreated`. -/
structure ProjectCreatedPayload where
  projectTemplate : Option ProjectTemplate
  projectTemplateTasks : Option (List String)
  totalTasks : Option Nat
  deriving DecidableEq, Repr

/-- The transformed project record (fields used by the handler). -/
structure TransformedProject where
  ProjectId : String
  ProjectName : String
  deriving DecidableEq, Repr

/-- Result of `upsertProjectTasks`. -/
structure TasksResult where
  count : Nat
  deriving DecidableEq, Repr

/-- Return value of `handleProjectCreated`. -/
structure ProjectCreatedResult where
  success : Bool
  projectId : String
  tasksCount : Nat
  deriving DecidableEq, Repr

/-- The three field validations at the top of `handleProjectCreated`. -/
def projectCreatedValidation (data : ProjectCreatedPayload) :
    Except HandlerError Unit := do
  validateRequired data.projectTemplate "projectTemplate"
  validateRequired data.projectTemplateTasks "projectTemplateTasks"
  validateString (data.projectTemplate.bind ProjectTemplate.projectTemplateId)
    "projectTemplateId"

/-- Try-block body of `handleProjectCreated`: validation, then transform
and upsert of the project, then transform and upsert of its tasks. -/
def handleProjectCreatedBody (data : ProjectCreatedPayload)
    (transformProject : ProjectCreatedPayload → Except HandlerError TransformedProject)
    (upsertProject : TransformedProject → Except HandlerError Unit)
    (transformTasks : ProjectCreatedPayload → Except HandlerError (List String))
    (upsertTasks : List String → Except HandlerError TasksResult) :
    Except HandlerError ProjectCreatedResult := do
  projectCreatedValidation data
  let p ← transformProject data
  upsertProject p
  let tasks ← transformTasks data
  let r ← upsertTasks tasks
  pure { success := true, projectId := p.ProjectId, tasksCount := r.count }

/-- The `handleProjectCreated` method: its try-block body inside the
catch block, which wraps a ValidationError with the distinguishing
message and rethrows any other error unchanged. -/
def handleProjectCreated (data : ProjectCreatedPayload)
    (transformProject : ProjectCreatedPayload → Except HandlerError TransformedProject)
    (upsertProject : TransformedProject → Except HandlerError Unit)
    (transformTasks : ProjectCreatedPayload → Except HandlerError (List String))
    (upsertTasks : List String → Except HandlerError TasksResult) :
    Except String ProjectCreatedResult :=
  match handleProjectCreatedBody data transformProject upsertProject
      transformTasks upsertTasks with
  | Except.ok r => Except.ok r
  | Except.error (HandlerError.validation m) =>
    Except.error ("Validation failed: " ++ m)
  | Except.error (HandlerError.other m) => Except.error m

/-- One task of a project-sync payload. -/
structure ProjectTask where
  taskId : Option String
  status : Option String
  deriving DecidableEq, Repr

/-- A project-sync payload as read by `handleProjectSyncUpdate`. -/
structure ProjectSyncPayload where
  _id : Option String
  solutionId : Option String
  userId : Option String
  status : Option String
  tasks : Option (List ProjectTask)
  deriving DecidableEq, Repr

/-- A derived completed-task tracking record (opaque to the handler). -/
abbrev TrackingRecord := String

/-- Result of `upsertProjectTaskTrackings`. -/
structure UpsertTrackingResult where
  inserted : Nat
  skipped : Nat
  deriving DecidableEq, Repr

/-- Return value of `handleProjectSyncUpdate`. -/
structure ProjectSyncResult where
  success : Bool
  projectId : Option String
  status : Option String
  totalTasks : Nat
  completedTasks : Nat
  inserted : Nat
  skipped : Nat
  deriving DecidableEq, Repr

/-- The four field validations at the top of `handleProjectSyncUpdate`. -/
def projectSyncValidation (data : ProjectSyncPayload) :
    Except HandlerError Unit := do
  validateRequired data._id "Project ID (_id)"
  validateString data._id "_id"
  validateRequired data.solutionId "Solution ID"
  validateRequired data.tasks "Tasks array"

/-- Try-block body of `handleProjectSyncUpdate`: validation, transform to
tracking records, the empty short-circuit, else the batch upsert. -/
def handleProjectSyncUpdateBody (data : ProjectSyncPayload)
    (transform : ProjectSyncPayload → Except HandlerError (List TrackingRecord))
    (upsert : List TrackingRecord → Except HandlerError UpsertTrackingResult) :
    Except HandlerError ProjectSyncResult := do
  projectSyncValidation data
  let trackingRecords ← transform data
  if trackingRecords.length == 0 then
    pure { success := true
           projectId := data.solutionId
           status := data.status
           totalTasks := (data.tasks.map List.length).getD 0
           completedTasks := 0
           inserted := 0
           skipped := 0 }
  else do
    let result ← upsert trackingRecords
    pure { success := true
           projectId := data.solutionId
           status := data.status
           totalTasks := (data.tasks.map List.length).getD 0
           completedTasks := trackingRecords.length
           inserted := result.inserted
           skipped := result.skipped }

/-- The `handleProjectSyncUpdate` method: its try-block body inside the
same ValidationError-wrapping catch block as `handleProjectCreated`. -/
def handleProjectSyncUpdate (data : ProjectSyncPayload)
    (transform : ProjectSyncPayload → Except HandlerError (List TrackingRecord))
    (upsert : List TrackingRecord → Except HandlerError UpsertTrackingResult) :
    Except String ProjectSyncResult :=
  match handleProjectSyncUpdateBody data transform upsert with
  | Except.ok r => Except.ok r
  | Except.error (HandlerError.validation m) =>
    Except.error ("Validation failed: " ++ m)
  | Except.error (HandlerError.other m) => Except.error m

/-! ## Theorems -/

/-- C1: an invocation of `executeCronJob` (scheduled, or via
`triggerManualExecution`) that starts while `jobStatus.isRunning` is true
returns without changing any field of the status — in particular the
three execution counters — and the guarded run itself logs exactly one
skip warning and nothing else. -/
theorem executeCronJob_overlap_guard (s : CronJobStatus) (now : Nat)
    (body : Except String Unit) (h : s.isRunning = true) :
    executeCronJob s now body =
      (s, [Action.logWarn "Cron job is already running, skipping this execution"]) ∧
    (executeCronJob s now body).1.totalExecutions = s.totalExecutions ∧
    (executeCronJob s now body).1.successfulExecutions = s.successfulExecutions ∧
    (executeCronJob s now body).1.failedExecutions = s.failedExecutions ∧
    (triggerManualExecution s now body).1 = s ∧
    ((executeCronJob s now body).2.filter Action.isWarn).length = 1 := by
  simp [executeCronJob, triggerManualExecution, h, Action.isWarn]

/-- Evaluation of the C1 overlap guard at a concrete running status. -/
theorem executeCronJob_overlap_guard_witness :
    executeCronJob
        { initialJobStatus with isRunning := true, totalExecutions := 3 } 7
        (Except.ok ()) =
      ({ initialJobStatus with isRunning := true, totalExecutions := 3 },
       [Action.logWarn "Cron job is already running, skipping this execution"]) :=
  (executeCronJob_overlap_guard
    { initialJobStatus with isRunning := true, totalExecutions := 3 } 7
    (Except.ok ()) rfl).1

/-- C2: every non-skipped run of `executeCronJob` — whether its body
returns normally or raises — terminates with `jobStatus.isRunning`
false. -/
theorem executeCronJob_releases_guard (s : CronJobStatus) (now : Nat)
    (body : Except String Unit) (h : s.isRunning = false) :
    (executeCronJob s now body).1.isRunning = false := by
  cases body <;> simp [executeCronJob, h]

/-- Evaluation of the C2 guard release on a failing concrete run. -/
theorem executeCronJob_releases_guard_witness :
    (executeCronJob initialJobStatus 2 (Except.error "api down")).1.isRunning
      = false :=
  executeCronJob_releases_guard initialJobStatus 2
    (Except.error "api down") rfl

/-- C10: on every status reachable from the constructor value, whenever
`isRunning` is false, `totalExecutions` equals `successfulExecutions`
plus `failedExecutions`; moreover, every non-skipped run increments
`totalExecutions` by exactly one and exactly one of the success / failure
counters by exactly one, a successful run also clearing `lastError`. -/
theorem jobStatus_counter_invariant :
    (∀ s, ReachableStatus s → s.isRunning = false →
      s.totalExecutions = s.successfulExecutions + s.failedExecutions) ∧
    (∀ s now body, s.isRunning = false →
      (executeCronJob s now body).1.totalExecutions = s.totalExecutions + 1 ∧
      (∀ u, body = Except.ok u →
        (executeCronJob s now body).1.successfulExecutions =
          s.successfulExecutions + 1 ∧
        (executeCronJob s now body).1.failedExecutions = s.failedExecutions ∧
        (executeCronJob s now body).1.lastError = none) ∧
      (∀ e, body = Except.error e →
        (executeCronJob s now body).1.failedExecutions =
          s.failedExecutions + 1 ∧
        (executeCronJob s now body).1.successfulExecutions =
          s.successfulExecutions ∧
        (executeCronJob s now body).1.lastError = some e)) := by
  constructor
  · intro s hs
    induction hs with
    | init => intro _; rfl
    | step s now body _ ih =>
      by_cases hrun : s.isRunning = true
      · simp [executeCronJob, hrun]
      · have hrun' : s.isRunning = false := by
          cases hx : s.isRunning
          · rfl
          · exact absurd hx hrun
        have ih' := ih hrun'
        cases body <;> intro _ <;> simp [executeCronJob, hrun'] <;> omega
  · intro s now body h
    refine ⟨?_, ?_, ?_⟩
    · cases body <;> simp [executeCronJob, h]
    · intro u hu; subst hu; simp [executeCronJob, h]
    · intro e he; subst he; simp [executeCronJob, h]

/-- Evaluation of the C10 invariant and run accounting at concrete
statuses. -/
theorem jobStatus_counter_invariant_witness :
    initialJobStatus.totalExecutions =
      initialJobStatus.successfulExecutions + initialJobStatus.failedExecutions ∧
    (executeCronJob initialJobStatus 5 (Except.ok ())).1.totalExecutions =
      initialJobStatus.totalExecutions + 1 ∧
    (executeCronJob initialJobStatus 5 (Except.ok ())).1.successfulExecutions =
      initialJobStatus.successfulExecutions + 1 ∧
    (executeCronJob initialJobStatus 5 (Except.error "boom")).1.failedExecutions =
      initialJobStatus.failedExecutions + 1 :=
  ⟨jobStatus_counter_invariant.1 initialJobStatus ReachableStatus.init rfl,
   (jobStatus_counter_invariant.2 initialJobStatus 5 (Except.ok ()) rfl).1,
   ((jobStatus_counter_invariant.2 initialJobStatus 5 (Except.ok ()) rfl).2.1
      () rfl).1,
   ((jobStatus_counter_invariant.2 initialJobStatus 5 (Except.error "boom")
      rfl).2.2 "boom" rfl).1⟩

/-- C3: the `eachMessage` boundary never propagates an exception to the
Kafka client: for every inbound message, every parse outcome and every
handler outcome, the callback terminates normally, and whenever its try
body raised, the error was logged at the boundary instead. -/
theorem eachMessage_never_throws (o : HandlerOracle)
    (parse : String → Except String Envelope) (topic : String)
    (value : Option String) :
    (eachMessage o parse topic value).thrown = none ∧
    (∀ e, (eachMessageBody o parse topic value).thrown = some e →
      Action.logError ("Error processing Kafka message: " ++ e) ∈
        (eachMessage o parse topic value).actions) := by
  unfold eachMessage
  cases h : (eachMessageBody o parse topic value).thrown <;> simp [h]

/-- Evaluation of the C3 boundary on a message whose JSON parse throws. -/
theorem eachMessage_never_throws_witness :
    (eachMessage (fun _ _ _ => ([], none))
        (fun _ => Except.error "Unexpected token") "user-topic"
        (some "not json")).thrown = none ∧
    Action.logError "Error processing Kafka message: Unexpected token" ∈
      (eachMessage (fun _ _ _ => ([], none))
        (fun _ => Except.error "Unexpected token") "user-topic"
        (some "not json")).actions :=
  ⟨(eachMessage_never_throws (fun _ _ _ => ([], none))
      (fun _ => Except.error "Unexpected token") "user-topic"
      (some "not json")).1,
   (eachMessage_never_throws (fun _ _ _ => ([], none))
      (fun _ => Except.error "Unexpected token") "user-topic"
      (some "not json")).2 "Unexpected token" rfl⟩

/-- C4: an envelope with `eventType` absent or `data` absent makes
`processEvent` a no-op: its trace is the debug banner plus exactly one
warning, with no handler invocation and no storage operation, and nothing
is thrown. -/
theorem processEvent_invalid_envelope_noop (o : HandlerOracle)
    (topic : String) (ev : Envelope)
    (h : ev.eventType = none ∨ ev.data = none) :
    processEvent o topic ev =
      { actions := consoleBanner ++
          [Action.logWarn ("Invalid event received from topic " ++ topic)]
        thrown := none } ∧
    ((processEvent o topic ev).actions.filter Action.isWarn).length = 1 ∧
    (processEvent o topic ev).actions.filter Action.isCall = [] ∧
    (processEvent o topic ev).actions.filter Action.isStorage = [] := by
  have heq : processEvent o topic ev =
      { actions := consoleBanner ++
          [Action.logWarn ("Invalid event received from topic " ++ topic)]
        thrown := none } := by
    rcases h with h | h
    · simp [processEvent, h, strTruthy, warnOnly, withPre]
    · simp [processEvent, h, warnOnly, withPre]
  refine ⟨heq, ?_, ?_, ?_⟩ <;>
    simp [heq, consoleBanner, Action.isWarn, Action.isCall, Action.isStorage]

/-- Evaluation of the C4 no-op on a concrete envelope missing `data`. -/
theorem processEvent_invalid_envelope_noop_witness :
    processEvent (fun _ _ _ => ([], none)) "user-topic"
        { eventType := some "USER_CREATED", data := none } =
      { actions := consoleBanner ++
          [Action.logWarn "Invalid event received from topic user-topic"]
        thrown := none } :=
  (processEvent_invalid_envelope_noop (fun _ _ _ => ([], none)) "user-topic"
    { eventType := some "USER_CREATED", data := none } (Or.inr rfl)).1

/-- C5: a valid envelope carrying `COURSE_ENROLLMENT_CREATED` (resp.
`CONTENT_TRACKING_CREATED`) is dispatched by `processEvent` to the fixed
course (resp. content) sub-dispatcher before any topic test: the result
is the same for every topic value, and the only handler invoked is the
fixed one. -/
theorem processEvent_eventType_override (o : HandlerOracle) (t1 t2 : String)
    (d : Payload) :
    processEvent o t1 { eventType := some "COURSE_ENROLLMENT_CREATED", data := some d } =
      withPre (consoleBanner ++ [Action.console])
        (handleCourseEvent o "COURSE_ENROLLMENT_CREATED" d) ∧
    processEvent o t1 { eventType := some "COURSE_ENROLLMENT_CREATED", data := some d } =
      processEvent o t2 { eventType := some "COURSE_ENROLLMENT_CREATED", data := some d } ∧
    (processEvent o t1 { eventType := some "COURSE_ENROLLMENT_CREATED", data := some d }).actions.filter
        Action.isCall =
      [Action.callHandler HandlerId.course "handleCourseEnrollmentCreated"] ∧
    processEvent o t1 { eventType := some "CONTENT_TRACKING_CREATED", data := some d } =
      withPre (consoleBanner ++ [Action.console])
        (handleContentEvent o "CONTENT_TRACKING_CREATED" d) ∧
    processEvent o t1 { eventType := some "CONTENT_TRACKING_CREATED", data := some d } =
      processEvent o t2 { eventType := some "CONTENT_TRACKING_CREATED", data := some d } ∧
    (processEvent o t1 { eventType := some "CONTENT_TRACKING_CREATED", data := some d }).actions.filter
        Action.isCall =
      [Action.callHandler HandlerId.content "handleContentTrackingCreated"] := by
  refine ⟨?_, ?_, ?_, ?_, ?_, ?_⟩ <;>
    simp [processEvent, strTruthy, handleCourseEvent, handleContentEvent,
      invokeHandler, warnOnly, withPre, consoleBanner, Action.isCall,
      List.filter_map, Function.comp]

/-- Whether the transform-then-save outcome of one item succeeded. -/
def itemOk (f : ApiItem → Except String Unit) (it : ApiItem) : Bool :=
  match f it with
  | Except.ok _ => true
  | Except.error _ => false

/-- The per-item loop counts exactly the items whose outcome
succeeded. -/
theorem processItems_count (f : ApiItem → Except String Unit) (tag : String) :
    ∀ items : List ApiItem,
      (processItems f tag items).1 = items.countP (itemOk f)
  | [] => by simp [processItems]
  | it :: rest => by
    cases h : f it <;>
      simp [processItems, h, itemOk, List.countP_cons,
        processItems_count f tag rest]

/-- The per-item loop logs every failing item with its identifier. -/
theorem processItems_error_logged (f : ApiItem → Except String Unit)
    (tag : String) (items : List ApiItem) :
    ∀ (it : ApiItem) (e : String), it ∈ items → f it = Except.error e →
      Action.logError (tag ++ it.identifier) ∈ (processItems f tag items).2 := by
  induction items with
  | nil => intro it e hmem _; cases hmem
  | cons a rest ih =>
    intro it e hmem herr
    rcases List.mem_cons.mp hmem with h | h
    · subst h
      simp [processItems, herr]
    · have hmemrest := ih it e h herr
      cases hfa : f a <;> simp [processItems, hfa]
      · exact Or.inr hmemrest
      · exact hmemrest

/-- A three-item course batch whose middle item fails transformation. -/
def courseBatchExample : List ApiItem :=
  [{ identifier := "course-1", body := "b1" },
   { identifier := "course-2", body := "b2" },
   { identifier := "course-3", body := "b3" }]

/-- An item outcome in which exactly the middle item of
`courseBatchExample` fails. -/
def courseOutcomeExample (it : ApiItem) : Except String Unit :=
  if it.identifier == "course-2" then Except.error "transform failed"
  else Except.ok ()

/-- C6: a failing item inside a sub-pull batch is logged with its
identifier, does not abort the remaining items and is not counted:
`totalProcessed` is the number of succeeding items, the sub-pull result
is still a success, and in particular the example batch of three course
items whose second item fails yields `totalProcessed = 2` while the
enclosing cron run records a successful execution. -/
theorem subPull_partial_failure_isolation :
    (∀ f items,
      (processCourseData (Except.ok { success := true, data := some items }) f).1 =
        Except.ok (items.countP (itemOk f))) ∧
    (∀ f items,
      (processQuestionSetData (Except.ok { success := true, data := some items }) f).1 =
        Except.ok (items.countP (itemOk f))) ∧
    (∀ f items (it : ApiItem) e, it ∈ items → f it = Except.error e →
      Action.logError ("Failed to process course data: " ++ it.identifier) ∈
        (processCourseData (Except.ok { success := true, data := some items }) f).2) ∧
    (processCourseData
        (Except.ok { success := true, data := some courseBatchExample })
        courseOutcomeExample).1 = Except.ok 2 ∧
    (executeCronJob initialJobStatus 0 (cronJobBody
        (processCourseData
          (Except.ok { success := true, data := some courseBatchExample })
          courseOutcomeExample).1
        (processQuestionSetData (Except.ok { success := true, data := some [] })
          courseOutcomeExample).1)).1.successfulExecutions = 1 := by
  refine ⟨?_, ?_, ?_, ?_, ?_⟩
  · intro f items
    cases items with
    | nil => simp [processCourseData]
    | cons a l => simp [processCourseData, processItems_count]
  · intro f items
    cases items with
    | nil => simp [processQuestionSetData]
    | cons a l => simp [processQuestionSetData, processItems_count]
  · intro f items it e hmem herr
    cases items with
    | nil => cases hmem
    | cons a l =>
      simp only [processCourseData, Bool.not_true, List.isEmpty_cons,
        Bool.false_or]
      have hlog := processItems_error_logged f
        "Failed to process course data: " (a :: l) it e hmem herr
      simp [List.mem_append, hlog]
  · rfl
  · rfl

/-- Evaluation of the C6 isolation on the example batch: two of three
items processed, and the failing item logged by identifier. -/
theorem subPull_partial_failure_isolation_witness :
    (processCourseData
        (Except.ok { success := true, data := some courseBatchExample })
        courseOutcomeExample).1 = Except.ok 2 ∧
    Action.logError ("Failed to process course data: " ++ "course-2") ∈
      (processCourseData
        (Except.ok { success := true, data := some courseBatchExample })
        courseOutcomeExample).2 :=
  ⟨subPull_partial_failure_isolation.2.2.2.1,
   subPull_partial_failure_isolation.2.2.1 courseOutcomeExample
     courseBatchExample { identifier := "course-2", body := "b2" }
     "transform failed" (by decide) rfl⟩

/-- C7: a project-sync payload that passes validation and whose
transformation yields zero completed-task tracking records makes
`handleProjectSyncUpdate` return the zero-effect success result — with
`completedTasks`, `inserted` and `skipped` all zero — for every possible
storage outcome, so the storage collaborator is never consulted. -/
theorem handleProjectSyncUpdate_zero_completed (data : ProjectSyncPayload)
    (transform : ProjectSyncPayload → Except HandlerError (List TrackingRecord))
    (hv : projectSyncValidation data = Except.ok ())
    (ht : transform data = Except.ok []) :
    ∀ upsert, handleProjectSyncUpdate data transform upsert =
      Except.ok { success := true
                  projectId := data.solutionId
                  status := data.status
                  totalTasks := (data.tasks.map List.length).getD 0
                  completedTasks := 0
                  inserted := 0
                  skipped := 0 } := by
  intro upsert
  have hbody : handleProjectSyncUpdateBody data transform upsert =
      Except.ok { success := true
                  projectId := data.solutionId
                  status := data.status
                  totalTasks := (data.tasks.map List.length).getD 0
                  completedTasks := 0
                  inserted := 0
                  skipped := 0 } := by
    unfold handleProjectSyncUpdateBody
    rw [hv, ht]
    rfl
  simp [handleProjectSyncUpdate, hbody]

/-- A valid project-sync payload with an empty task list. -/
def syncPayloadExample : ProjectSyncPayload :=
  { _id := some "proj-1"
    solutionId := some "sol-1"
    userId := some "u-1"
    status := some "started"
    tasks := some [] }

/-- Evaluation of the C7 short-circuit on a concrete payload against a
storage collaborator that would fail if consulted. -/
theorem handleProjectSyncUpdate_zero_completed_witness :
    handleProjectSyncUpdate syncPayloadExample (fun _ => Except.ok [])
        (fun _ => Except.error (HandlerError.other "storage unavailable")) =
      Except.ok { success := true
                  projectId := some "sol-1"
                  status := some "started"
                  totalTasks := 0
                  completedTasks := 0
                  inserted := 0
                  skipped := 0 } := by
  have h := handleProjectSyncUpdate_zero_completed syncPayloadExample
    (fun _ => Except.ok []) rfl rfl
    (fun _ => Except.error (HandlerError.other "storage unavailable"))
  simpa [syncPayloadExample] using h

/-- C8: a payload rejected by field validation makes
`handleProjectCreated` / `handleProjectSyncUpdate` raise an error whose
message is the validation message behind the distinguishing
"Validation failed:" marker, while any non-validation error escaping the
try body is re-raised with its message unchanged. -/
theorem projectHandler_error_taxonomy :
    (∀ data tP uP tT uT m,
      projectCreatedValidation data = Except.error (HandlerError.validation m) →
        handleProjectCreated data tP uP tT uT =
          Except.error ("Validation failed: " ++ m) ∧
        (∃ rest, "Validation failed: " ++ m = "Validation failed:" ++ rest)) ∧
    (∀ data tP uP tT uT m,
      handleProjectCreatedBody data tP uP tT uT =
          Except.error (HandlerError.other m) →
        handleProjectCreated data tP uP tT uT = Except.error m) ∧
    (∀ data transform upsert m,
      projectSyncValidation data = Except.error (HandlerError.validation m) →
        handleProjectSyncUpdate data transform upsert =
          Except.error ("Validation failed: " ++ m) ∧
        (∃ rest, "Validation failed: " ++ m = "Validation failed:" ++ rest)) ∧
    (∀ data transform upsert m,
      handleProjectSyncUpdateBody data transform upsert =
          Except.error (HandlerError.other m) →
        handleProjectSyncUpdate data transform upsert = Except.error m) := by
  refine ⟨?_, ?_, ?_, ?_⟩
  · intro data tP uP tT uT m h
    have hbody : handleProjectCreatedBody data tP uP tT uT =
        Except.error (HandlerError.validation m) := by
      unfold handleProjectCreatedBody
      rw [h]
      rfl
    refine ⟨by simp [handleProjectCreated, hbody], ⟨" " ++ m, ?_⟩⟩
    rw [← String.append_assoc]
    have hpre : "Validation failed: " = "Validation failed:" ++ " " := by decide
    rw [hpre]
  · intro data tP uP tT uT m h
    simp [handleProjectCreated, h]
  · intro data transform upsert m h
    have hbody : handleProjectSyncUpdateBody data transform upsert =
        Except.error (HandlerError.validation m) := by
      unfold handleProjectSyncUpdateBody
      rw [h]
      rfl
    refine ⟨by simp [handleProjectSyncUpdate, hbody], ⟨" " ++ m, ?_⟩⟩
    rw [← String.append_assoc]
    have hpre : "Validation failed: " = "Validation failed:" ++ " " := by decide
    rw [hpre]
  · intro data transform upsert m h
    simp [handleProjectSyncUpdate, h]

/-- Evaluation of the C8 taxonomy: a payload missing its project
template is rejected with the marked message, and a storage failure on a
valid payload is re-raised unchanged. -/
theorem projectHandler_error_taxonomy_witness :
    handleProjectCreated
        { projectTemplate := none, projectTemplateTasks := some [],
          totalTasks := some 0 }
        (fun _ => Except.ok { ProjectId := "p", ProjectName := "n" })
        (fun _ => Except.ok ()) (fun _ => Except.ok [])
        (fun _ => Except.ok { count := 0 }) =
      Except.error ("Validation failed: " ++ "projectTemplate is required") ∧
    handleProjectSyncUpdate syncPayloadExample (fun _ => Except.ok ["t1"])
        (fun _ => Except.error (HandlerError.other "insert rejected")) =
      Except.error "insert rejected" :=
  ⟨(projectHandler_error_taxonomy.1
      { projectTemplate := none, projectTemplateTasks := some [],
        totalTasks := some 0 }
      (fun _ => Except.ok { ProjectId := "p", ProjectName := "n" })
      (fun _ => Except.ok ()) (fun _ => Except.ok [])
      (fun _ => Except.ok { count := 0 })
      "projectTemplate is required" rfl).1,
   projectHandler_error_taxonomy.2.2.2 syncPayloadExample
     (fun _ => Except.ok ["t1"])
     (fun _ => Except.error (HandlerError.other "insert rejected"))
     "insert rejected" rfl⟩

/-- Lookup after the update branch of the save methods: the row keyed by
the incoming identifier now carries the incoming fields and the fresh
timestamp. -/
theorem findOne_map_update (cd : EntityData) (now : Nat) :
    ∀ store : List EntityRow,
      (findOneByIdentifier store cd.identifier).isSome = true →
      findOneByIdentifier (store.map (fun r =>
        if r.identifier == cd.identifier then
          { identifier := cd.identifier, fields := cd.fields, updated_at := now }
        else r)) cd.identifier =
        some { identifier := cd.identifier, fields := cd.fields, updated_at := now }
  | [] => by intro h; simp [findOneByIdentifier] at h
  | a :: rest => by
    intro h
    simp only [findOneByIdentifier] at h ⊢
    rw [List.map_cons]
    by_cases ha : (a.identifier == cd.identifier) = true
    · rw [if_pos ha, List.find?_cons]
      simp
    · have ha' : (a.identifier == cd.identifier) = false := by
        simp only [Bool.not_eq_true] at ha
        exact ha
      rw [if_neg ha]
      have hrest : (findOneByIdentifier rest cd.identifier).isSome = true := by
        simp only [findOneByIdentifier, List.find?_isSome] at h ⊢
        rcases h with ⟨x, hx, hpx⟩
        rcases List.mem_cons.mp hx with rfl | hxr
        · rw [hpx] at ha'; cases ha'
        · exact ⟨x, hxr, hpx⟩
      have ih := findOne_map_update cd now rest hrest
      simp only [findOneByIdentifier] at ih
      rw [List.find?_cons]
      simp only [ha']
      exact ih

/-- C9: both `saveCourseData` and `saveQuestionSetData` upsert by the
natural key `identifier`: when a row with that identifier exists, it is
replaced in place by the incoming mutable fields with a refreshed
`updated_at` (no row added or removed, rows under other identifiers
untouched); when none exists, the incoming row is appended, also
stamped with `updated_at`; and the two save methods compute the same
store. -/
theorem save_upsert_by_identifier (store : List EntityRow) (cd : EntityData)
    (now : Nat) :
    ((findOneByIdentifier store cd.identifier).isSome = true →
      findOneByIdentifier (saveCourseData store cd now) cd.identifier =
        some { identifier := cd.identifier, fields := cd.fields, updated_at := now } ∧
      (saveCourseData store cd now).length = store.length ∧
      ∀ r ∈ store, (r.identifier == cd.identifier) = false →
        r ∈ saveCourseData store cd now) ∧
    (findOneByIdentifier store cd.identifier = none →
      saveCourseData store cd now =
        store ++ [{ identifier := cd.identifier, fields := cd.fields, updated_at := now }]) ∧
    saveQuestionSetData store cd now = saveCourseData store cd now := by
  refine ⟨?_, ?_, ?_⟩
  · intro hfound
    cases hfind : findOneByIdentifier store cd.identifier with
    | none => rw [hfind] at hfound; cases hfound
    | some r0 =>
      refine ⟨?_, ?_, ?_⟩
      · have := findOne_map_update cd now store hfound
        simpa [saveCourseData, hfind] using this
      · simp [saveCourseData, hfind]
      · intro r hr hne
        have hmem := List.mem_map_of_mem (fun r : EntityRow =>
          if r.identifier == cd.identifier then
            { identifier := cd.identifier, fields := cd.fields, updated_at := now }
          else r) hr
        have hfr : (fun r : EntityRow =>
            if r.identifier == cd.identifier then
              { identifier := cd.identifier, fields := cd.fields, updated_at := now }
            else r) r = r := by
          simp [hne]
        rw [hfr] at hmem
        simpa [saveCourseData, hfind] using hmem
  · intro hnone
    simp [saveCourseData, hnone]
  · unfold saveCourseData saveQuestionSetData
    rfl

/-- Evaluation of the C9 upsert on a one-row store (update branch) and
an empty store (insert branch). -/
theorem save_upsert_by_identifier_witness :
    findOneByIdentifier
        (saveCourseData [{ identifier := "c1", fields := "old", updated_at := 1 }]
          { identifier := "c1", fields := "new" } 9) "c1" =
      some { identifier := "c1", fields := "new", updated_at := 9 } ∧
    saveCourseData [] { identifier := "c2", fields := "f" } 4 =
      [{ identifier := "c2", fields := "f", updated_at := 4 }] :=
  ⟨((save_upsert_by_identifier
      [{ identifier := "c1", fields := "old", updated_at := 1 }]
      { identifier := "c1", fields := "new" } 9).1 (by decide)).1,
   (save_upsert_by_identifier [] { identifier := "c2", fields := "f" } 4).2.1
     rfl⟩

end ShikshaReports
